import Mathlib

/-!
Verification of the Campaign Analysis Engine (`modules/analysis.py`,
class `TweetAnalyzer`) against its natural-language specification.

The engine operates on a pandas DataFrame of tweet records.  We embed a
DataFrame as a list of typed rows (`Row`) plus dataset-level flags
recording which optional columns are present (`Df`).  A pandas `NaN` /
missing cell is embedded as `Option.none`.  Python floats are embedded
as rationals (`ℚ`); all arithmetic in the engine is elementary
(+, -, *, /, max), which floats and rationals share at the level the
specification speaks about.

External primitives are parameters of the embedding:
the TextBlob polarity primitive is a function `String → ℚ`, the geopy
geocoder (already wrapped by `RateLimiter(..., return_value_on_exception=None)`)
is a function `String → Option (ℚ × ℚ)`, and the wall clock
`datetime.now(timezone.utc)` is an integer epoch-second parameter `now`.
-/

namespace Argus

/- Rational arithmetic is evaluated by `decide` in the concrete witness
and counterexample theorems; the kernel unfolds these operations in any
case, the attribute only lets the elaborator do the same. -/
attribute [local semireducible] Rat.add Rat.mul Rat.sub Rat.inv Rat.ofScientific

/-- Parse outcome of the `author_created_at` cell, as seen by
`_calculate_bot_score`: `pd.to_datetime` either yields a timezone-aware
timestamp (embedded as epoch seconds) or raises `TypeError`/`ValueError`
(a malformed or timezone-naive value), which the code catches.  A missing
(`NaN`) cell is `Option.none` around this type. -/
inductive TsVal where
  | malformed : TsVal
  | valid : ℤ → TsVal
deriving DecidableEq

/-- One record (DataFrame row) of the tweet dataset.  The first ten fields
are the raw input columns (`tweet_id`, `author_id`, `text`, the four
interaction counts and the optional author columns); the remaining fields
are the derived columns, `none` until the corresponding pipeline stage
has run. -/
structure Row where
  tweet_id : String
  author_id : Option String
  text : String
  like_count : ℚ
  retweet_count : ℚ
  reply_count : ℚ
  quote_count : ℚ
  author_created_at : Option TsVal := none
  author_followers_count : Option ℚ := none
  author_location : Option String := none
  engagement_score : Option ℚ := none
  sentiment_polarity : Option ℚ := none
  sentiment_label : Option String := none
  hashtags : Option (List String) := none
  mentions : Option (List String) := none
  urls : Option (List String) := none
  tweet_count : Option ℕ := none
  total_engagement : Option ℚ := none
  hostile_tweet_count : Option ℕ := none
  author_hostility_score : Option ℚ := none
  bot_score : Option ℚ := none
  latitude : Option ℚ := none
  longitude : Option ℚ := none
deriving DecidableEq

/-- A dataset: the rows plus dataset-level presence flags for the three
optional input columns (`k in self.df` in the source tests column
presence, which a row-typed embedding cannot read off the rows). -/
structure Df where
  rows : List Row
  has_author_created_at : Bool
  has_author_followers_count : Bool
  has_author_location : Bool
deriving DecidableEq

/-- The weight dictionary of `_calculate_engagement_score`:
`weights = {'like_count': 1, 'retweet_count': 2, 'reply_count': 1.5, 'quote_count': 3}`. -/
def weights (k : String) : ℚ :=
  if k = "like_count" then 1
  else if k = "retweet_count" then 2
  else if k = "reply_count" then 1.5
  else if k = "quote_count" then 3
  else 0

/-- `TweetAnalyzer._calculate_engagement_score`: the weighted sum of the
four raw interaction counts of one row. -/
def engagementScore (like retweet reply quote : ℚ) : ℚ :=
  like * weights "like_count" + retweet * weights "retweet_count" +
    reply * weights "reply_count" + quote * weights "quote_count"

/-- `TweetAnalyzer._get_sentiment`: the TextBlob polarity primitive `pol`
applied to the text, thresholded at `±0.05` into the three labels. -/
def getSentiment (pol : String → ℚ) (text : String) : ℚ × String :=
  let polarity := pol text
  let threshold : ℚ := 0.05
  if polarity < -threshold then (polarity, "Hostile")
  else if polarity > threshold then (polarity, "Positive")
  else (polarity, "Neutral")

/-- `TweetAnalyzer._calculate_bot_score` on one row, given the current
time `now` (epoch seconds).  Returns `none` when either author field is
missing (`pd.isna`).  `(datetime.now(utc) - created).days` is the floor
of the difference in days, embedded with `Int.fdiv`; a malformed
timestamp raises inside the `try` and the code substitutes
`age_score = 0.5`. -/
def botScore (now : ℤ) (created : Option TsVal) (followers : Option ℚ) : Option ℚ :=
  match created, followers with
  | none, _ => none
  | _, none => none
  | some c, some f =>
    let ageScore : ℚ :=
      match c with
      | TsVal.valid t => max 0 (1 - ((Int.fdiv (now - t) 86400 : ℤ) : ℚ) / 365)
      | TsVal.malformed => 0.5
    let followerScore : ℚ := max 0 (1 - f / 100)
    some (((ageScore + followerScore) / 2) * 100)

example : engagementScore 10 2 1 0 = 15.5 := by decide
example : (getSentiment (fun _ => -(0.05 : ℚ)) "x").2 = "Neutral" := by decide
example : botScore 0 (some (TsVal.valid (-31536000))) (some 50) = some 25 := by decide
example : botScore 0 (some (TsVal.valid 86400)) (some 0) = some (7310 / 73) := by decide

/-- Append `e` unless it is already present.  This is at once the
behaviour of `networkx.DiGraph.add_edge` on the edge list (adding an
existing edge is a no-op) and of `pandas.Series.unique` (keep the first
occurrence of each value, in order of first appearance). -/
def dedupAppend {α : Type} [DecidableEq α] (es : List α) (e : α) : List α :=
  if e ∈ es then es else es ++ [e]

theorem mem_dedupAppend {α : Type} [DecidableEq α] (es : List α) (e a : α) :
    a ∈ dedupAppend es e ↔ a ∈ es ∨ a = e := by
  unfold dedupAppend
  by_cases h : e ∈ es
  · rw [if_pos h]
    constructor
    · exact fun ha => Or.inl ha
    · rintro (ha | rfl)
      · exact ha
      · exact h
  · rw [if_neg h]
    simp [List.mem_append]

theorem nodup_dedupAppend {α : Type} [DecidableEq α] (es : List α) (e : α)
    (h : es.Nodup) : (dedupAppend es e).Nodup := by
  unfold dedupAppend
  by_cases he : e ∈ es <;> simp [he, List.nodup_append, h]

theorem mem_foldl_dedupAppend {α : Type} [DecidableEq α] (l : List α) :
    ∀ (acc : List α) (a : α), a ∈ l.foldl dedupAppend acc ↔ a ∈ acc ∨ a ∈ l := by
  induction l with
  | nil => intro acc a; simp
  | cons e l ih =>
    intro acc a
    rw [List.foldl_cons, ih (dedupAppend acc e) a, mem_dedupAppend]
    constructor
    · rintro ((h | h) | h)
      · exact Or.inl h
      · exact Or.inr (by simp [h])
      · exact Or.inr (by simp [h])
    · rintro (h | h)
      · exact Or.inl (Or.inl h)
      · rcases List.mem_cons.mp h with h | h
        · exact Or.inl (Or.inr h)
        · exact Or.inr h

theorem nodup_foldl_dedupAppend {α : Type} [DecidableEq α] (l : List α) :
    ∀ (acc : List α), acc.Nodup → (l.foldl dedupAppend acc).Nodup := by
  induction l with
  | nil => intro acc h; simpa using h
  | cons e l ih =>
    intro acc h
    rw [List.foldl_cons]
    exact ih (dedupAppend acc e) (nodup_dedupAppend acc e h)

/-- `pandas.Series.unique`: the distinct values in order of first
appearance. -/
def uniqueFirst {α : Type} [DecidableEq α] (l : List α) : List α :=
  l.foldl dedupAppend []

theorem mem_uniqueFirst {α : Type} [DecidableEq α] (l : List α) (a : α) :
    a ∈ uniqueFirst l ↔ a ∈ l := by
  unfold uniqueFirst
  rw [mem_foldl_dedupAppend]
  simp

theorem nodup_uniqueFirst {α : Type} [DecidableEq α] (l : List α) :
    (uniqueFirst l).Nodup :=
  nodup_foldl_dedupAppend l [] List.nodup_nil

/-- A character matched by the regex class `\w` (embedded at the ASCII
level of `Char.isAlphanum`). -/
def wordChar (c : Char) : Bool := c.isAlphanum || c == '_'

/-- A character matched by the regex class `\S`. -/
def nonSpace (c : Char) : Bool := !c.isWhitespace

/-- One scan step of `re.findall(r"D(\w+)", text)` for a one-character
delimiter `D` (`#` or `@`): at each delimiter, capture the maximal
non-empty run of word characters that follows and resume after it.  The
fuel argument (instantiated with the text length) only serves structural
termination; each step consumes at least one character. -/
def findTaggedAux (d : Char) : ℕ → List Char → List String
  | 0, _ => []
  | _ + 1, [] => []
  | n + 1, c :: cs =>
    if c == d then
      let w := cs.takeWhile wordChar
      if w.isEmpty then findTaggedAux d n cs
      else String.mk w :: findTaggedAux d n (cs.drop w.length)
    else findTaggedAux d n cs

/-- `re.findall(r"#(\w+)", text)` respectively `re.findall(r"@(\w+)", text)`
from `TweetAnalyzer._extract_entities`. -/
def findTagged (d : Char) (text : String) : List String :=
  findTaggedAux d text.data.length text.data

/-- Scheme part of the regex `https?://\S+`: greedy optional `s`. -/
def stripScheme (l : List Char) : Option (List Char × List Char) :=
  if List.isPrefixOf "https://".data l then some ("https://".data, l.drop 8)
  else if List.isPrefixOf "http://".data l then some ("http://".data, l.drop 7)
  else none

/-- Scan of `re.findall(r"https?://\S+", text)`; fueled like
`findTaggedAux`. -/
def findUrlsAux : ℕ → List Char → List String
  | 0, _ => []
  | _ + 1, [] => []
  | n + 1, c :: cs =>
    match stripScheme (c :: cs) with
    | some (proto, rest) =>
      let run := rest.takeWhile nonSpace
      if run.isEmpty then findUrlsAux n cs
      else String.mk (proto ++ run) :: findUrlsAux n (rest.drop run.length)
    | none => findUrlsAux n cs

/-- `re.findall(r"https?://\S+", text)` from `_extract_entities`. -/
def findUrls (text : String) : List String :=
  findUrlsAux text.data.length text.data

example : findTagged '#' "a #tag1 no#tag2#tag3 # none" = ["tag1", "tag2", "tag3"] := by decide
example : findTagged '@' "@a @@b x" = ["a", "b"] := by decide
example : findUrls "see https://x.y/z and http://q r" = ["https://x.y/z", "http://q"] := by decide
example : findUrls "https:// nope" = [] := by decide

/-- Stage 1 of `run_full_analysis`:
`self.df['engagement_score'] = self.df.apply(self._calculate_engagement_score, axis=1)`. -/
def applyEngagement (rows : List Row) : List Row :=
  rows.map fun r =>
    let e := engagementScore r.like_count r.retweet_count r.reply_count r.quote_count
    { r with engagement_score := some e }

/-- Stage 2 of `run_full_analysis`: `sentiments = self.df['text'].apply(self._get_sentiment)`
followed by the two-column assignment. -/
def applySentiment (pol : String → ℚ) (rows : List Row) : List Row :=
  rows.map fun r =>
    let s := getSentiment pol r.text
    { r with sentiment_polarity := some s.1, sentiment_label := some s.2 }

/-- Stage 3 of `run_full_analysis`: `self.df['text'].astype(str).apply(self._extract_entities)`
followed by the three-column assignment. -/
def applyEntities (rows : List Row) : List Row :=
  rows.map fun r =>
    { r with hashtags := some (findTagged '#' r.text),
             mentions := some (findTagged '@' r.text),
             urls := some (findUrls r.text) }

/-- Size of an author's group: `agg(tweet_count=('tweet_id','count'))`.
The pandas `count` aggregate counts non-null `tweet_id` cells; `tweet_id`
is a required input column (always present in a `Row`), so this is the
number of rows carrying this author identifier.  `groupby('author_id')`
keys on the non-null cell value `some a`. -/
def groupCount (df : List Row) (a : String) : ℕ :=
  (df.filter fun p => p.author_id == some a).length

/-- `agg(total_engagement=('engagement_score','sum'))` for one author
group; the pandas `sum` aggregate treats a null cell as 0. -/
def groupTotalEngagement (df : List Row) (a : String) : ℚ :=
  ((df.filter fun p => p.author_id == some a).map fun p => p.engagement_score.getD 0).sum

/-- `self.df[self.df['sentiment_label'] == 'Hostile'].groupby('author_id').size()`
for one author, with the `.map(hostile_counts).fillna(0)` default of 0
for an author with no hostile posts. -/
def groupHostileCount (df : List Row) (a : String) : ℕ :=
  ((df.filter fun p => p.sentiment_label == some "Hostile").filter fun p =>
    p.author_id == some a).length

/-- One row of the `author_agg` frame built by `_calculate_author_metrics`:
the four aggregate columns keyed by `author_id`.
`author_hostility_score = (hostile_tweet_count / tweet_count) * 100`. -/
structure AggRow where
  author_id : String
  tweet_count : ℕ
  total_engagement : ℚ
  hostile_tweet_count : ℕ
  author_hostility_score : ℚ
deriving DecidableEq

/-- The `author_agg` row of one author. -/
def mkAggRow (df : List Row) (a : String) : AggRow :=
  { author_id := a,
    tweet_count := groupCount df a,
    total_engagement := groupTotalEngagement df a,
    hostile_tweet_count := groupHostileCount df a,
    author_hostility_score := ((groupHostileCount df a : ℚ) / (groupCount df a : ℚ)) * 100 }

/-- The `author_agg` frame: one row per distinct non-null `author_id`
(pandas `groupby` drops null keys; key order is irrelevant after the
merge, we keep first-appearance order). -/
def authorAgg (df : List Row) : List AggRow :=
  (uniqueFirst (df.filterMap fun p => p.author_id)).map (mkAggRow df)

/-- The effect of `self.df.merge(author_agg, on='author_id', how='left')`
on one left row: look the row's author up in `author_agg` — whose keys
are unique, so the unique-key left merge is a lookup and in particular
neither drops nor duplicates left rows — and attach the four aggregate
columns; an unmatched row (null `author_id`, which never equals a key)
gets all four columns null. -/
def mergeRow (agg : List AggRow) (p : Row) : Row :=
  match p.author_id.bind fun a => agg.find? fun g => g.author_id == a with
  | some g =>
    { p with tweet_count := some g.tweet_count,
             total_engagement := some g.total_engagement,
             hostile_tweet_count := some g.hostile_tweet_count,
             author_hostility_score := some g.author_hostility_score }
  | none =>
    { p with tweet_count := none,
             total_engagement := none,
             hostile_tweet_count := none,
             author_hostility_score := none }

/-- `TweetAnalyzer._calculate_author_metrics`: build `author_agg` and
left-merge it back onto every row. -/
def calculateAuthorMetrics (df : List Row) : List Row :=
  df.map (mergeRow (authorAgg df))

/-- Conditional stage 5 of `run_full_analysis`:
`self.df['bot_score'] = self.df.apply(self._calculate_bot_score, axis=1)`. -/
def applyBotScore (now : ℤ) (rows : List Row) : List Row :=
  rows.map fun r =>
    { r with bot_score := botScore now r.author_created_at r.author_followers_count }

/-- The pair of coordinate cells cached for one location string:
`(location_obj.latitude, location_obj.longitude) if location_obj else (None, None)`. -/
def geoPair : Option (ℚ × ℚ) → Option ℚ × Option ℚ
  | some p => (some p.1, some p.2)
  | none => (none, none)

/-- `unique_locations = self.df['author_location'].dropna().unique()`. -/
def uniqueLocations (rows : List Row) : List String :=
  uniqueFirst (rows.filterMap fun r => r.author_location)

/-- The sequence of arguments passed to the external `geocode` lookup by
`_geocode_locations`: one call per entry of `unique_locations`, none when
the column is absent or holds no data. -/
def geocodeCallLog (hasCol : Bool) (rows : List Row) : List String :=
  if hasCol then uniqueLocations rows else []

/-- `coords = self.df['author_location'].map(location_cache)` on one
row: a null location is not a cache key and yields null coordinates,
otherwise the cached pair for the row's location string is attached. -/
def applyCache (cache : List (String × (Option ℚ × Option ℚ))) (r : Row) : Row :=
  match r.author_location with
  | none => { r with latitude := none, longitude := none }
  | some s =>
    match cache.find? fun e => e.1 == s with
    | some e => { r with latitude := e.2.1, longitude := e.2.2 }
    | none => { r with latitude := none, longitude := none }

/-- The coordinate columns `_geocode_locations` writes when it runs to
completion: absent column or no location data sets both columns to null;
otherwise geocode each distinct location string once into
`location_cache` and map every row's location through the cache.  This
is the stage's success-path effect on the rows (also its whole per-cell
write set, of which a raising run performs a subset); the raising path
of the final two-column assignment is modelled by `geocodeLocations`. -/
def geocodeStage (geo : String → Option (ℚ × ℚ)) (hasCol : Bool) (rows : List Row) :
    List Row :=
  if hasCol then
    let uniq := uniqueLocations rows
    if uniq.isEmpty then
      rows.map fun r => { r with latitude := none, longitude := none }
    else
      let cache := uniq.map fun s => (s, geoPair (geo s))
      rows.map (applyCache cache)
  else
    rows.map fun r => { r with latitude := none, longitude := none }

/-- `TweetAnalyzer._geocode_locations` with its failure path.  In the
cache branch the source runs
`coords = self.df['author_location'].map(location_cache)` and then
`self.df[['latitude', 'longitude']] = pd.DataFrame(coords.tolist(), index=self.df.index)`.
`coords.tolist()` holds a 2-tuple for each non-null location (every
non-null string is a cache key) and a float `nan` for each null one, and
the `pd.DataFrame` list constructor dispatches on the FIRST element
only: a tuple first element builds a two-column frame (later `nan`
entries become null rows, via the tuple-array fallback), while a `nan`
first element builds a one-column frame, on which the two-column
assignment raises `ValueError('Columns must be same length as key')`.
So the stage completes iff the first row's location is non-null, and
raises when the first row's location is null while another row holds
location data.  (`head? = none` with a non-empty distinct-location list
cannot arise: a zero-row list would likewise build a zero-column frame
and raise.) -/
def geocodeLocations (geo : String → Option (ℚ × ℚ)) (hasCol : Bool) (rows : List Row) :
    Except String (List Row) :=
  if hasCol then
    if (uniqueLocations rows).isEmpty then
      Except.ok (rows.map fun r => { r with latitude := none, longitude := none })
    else
      match rows.head? with
      | none => Except.error "Columns must be same length as key"
      | some r0 =>
        match r0.author_location with
        | none => Except.error "Columns must be same length as key"
        | some _ =>
          Except.ok (rows.map (applyCache
            ((uniqueLocations rows).map fun s => (s, geoPair (geo s)))))
  else
    Except.ok (rows.map fun r => { r with latitude := none, longitude := none })

/-- Row filter of `generate_network_graph`:
`self.df['mentions'].apply(lambda x: isinstance(x, list) and len(x) > 0)` —
a null cell is not a list. -/
def hasMentions (r : Row) : Bool :=
  match r.mentions with
  | some l => !l.isEmpty
  | none => false

/-- `author = str(row['author_id'])`: `str()` of a null (`NaN`) cell is
the string `"nan"`. -/
def authorStr : Option String → String
  | some a => a
  | none => "nan"

/-- The sequence of `(author, mentioned)` pairs in the order
`generate_network_graph` passes them to `G.add_edge`: rows with a
non-empty mention list, then each mentioned handle of the row. -/
def mentionOccurrences (rows : List Row) : List (String × String) :=
  ((rows.filter hasMentions).map fun r =>
    (r.mentions.getD []).map fun m => (authorStr r.author_id, m)).flatten

/-- The edge list of the `networkx.DiGraph` built by
`generate_network_graph`: `add_edge` inserts each `(author, mentioned)`
pair unless the edge already exists (a `DiGraph` is a simple digraph). -/
def graphEdges (rows : List Row) : List (String × String) :=
  (rows.filter hasMentions).foldl
    (fun es r => (r.mentions.getD []).foldl
      (fun es2 m => dedupAppend es2 (authorStr r.author_id, m)) es) []

/-- Sort key of the final `sort_values(by='engagement_score', ...)`. -/
def sortKey (r : Row) : ℚ := r.engagement_score.getD 0

/-- Insert into an ascending-sorted list, before the first element with a
key not below the inserted one (a stable ascending insertion). -/
def insertAsc (r : Row) : List Row → List Row
  | [] => [r]
  | x :: xs => if sortKey r ≤ sortKey x then r :: x :: xs else x :: insertAsc r xs

/-- Ascending sort by `sortKey`, standing in for the `argsort` kernel of
pandas `nargsort`.  The kernel the source actually selects is numpy's
default introsort (`kind='quicksort'`), which coincides with this
insertion sort only below its 16-element partition threshold and does
not guarantee the order of tied keys above it; this model is stable, a
strengthening of the program on ties, and no claim theorem relies on
its tie order (the tie-order divergence is reported on the claim about
sort stability, not proved away). -/
def insertionSortAsc : List Row → List Row
  | [] => []
  | x :: xs => insertAsc x (insertionSortAsc xs)

/-- `self.df.sort_values(by='engagement_score', ascending=False)`,
following pandas `nargsort`: split off the null keys, reverse the
non-null block, argsort it ascending, reverse the result, and append the
null-keyed rows at the end (`na_position='last'`).  Because the argsort
kernel used here is stable (see `insertionSortAsc`), this modelled sort
keeps tied keys in their original order, which the source's default
quicksort kind does not guarantee beyond 16 elements. -/
def sortValuesDesc (rows : List Row) : List Row :=
  let nonNan := rows.filter fun r => r.engagement_score.isSome
  let nan := rows.filter fun r => r.engagement_score.isNone
  (insertionSortAsc nonNan.reverse).reverse ++ nan

/-- The state of `self.df` in `run_full_analysis` just before the final
`sort_values`: the fixed stage order.  Bot scoring runs only if both
author columns are present (`all(k in self.df for k in [...])`);
`_geocode_locations` checks the location column itself. -/
def enrichedRows (pol : String → ℚ) (geo : String → Option (ℚ × ℚ)) (now : ℤ)
    (df : Df) : List Row :=
  let rows1 := applyEngagement df.rows
  let rows2 := applySentiment pol rows1
  let rows3 := applyEntities rows2
  let rows4 := calculateAuthorMetrics rows3
  let rows5 :=
    if df.has_author_created_at && df.has_author_followers_count then
      applyBotScore now rows4
    else rows4
  geocodeStage geo df.has_author_location rows5

/-- `TweetAnalyzer.run_full_analysis`: enrich, then
`self.df = self.df.sort_values(by='engagement_score', ascending=False)`. -/
def runFullAnalysis (pol : String → ℚ) (geo : String → Option (ℚ × ℚ)) (now : ℤ)
    (df : Df) : Df :=
  { df with rows := sortValuesDesc (enrichedRows pol geo now df) }

/-- The default dataset, used only as the out-of-range default of heap
reads (a dangling reference never arises from `analyzerInit`). -/
def emptyDf : Df :=
  { rows := [], has_author_created_at := false,
    has_author_followers_count := false, has_author_location := false }

/-- A heap of DataFrame objects; Python references are indices.  The
caller's DataFrame and the analyzer's `self.df` are distinct cells, which
is what `df.copy()` in `TweetAnalyzer.__init__` buys. -/
abbrev Heap : Type := List Df

/-- `TweetAnalyzer.__init__`: raise `ValueError` on an empty DataFrame,
otherwise allocate a fresh cell holding a copy of the caller's DataFrame
and let `self.df` refer to the copy. -/
def analyzerInit (h : Heap) (caller : ℕ) : Except String (Heap × ℕ) :=
  if (h.getD caller emptyDf).rows.isEmpty then
    Except.error "Input DataFrame cannot be empty."
  else
    Except.ok (h ++ [h.getD caller emptyDf], h.length)

/-- An in-place update of the analyzer's own DataFrame cell: every
mutating statement of the pipeline has the shape `self.df = f(self.df)`
or a column assignment on `self.df`. -/
def setSelfDf (h : Heap) (s : ℕ) (f : Df → Df) : Heap :=
  h.set s (f (h.getD s emptyDf))

/-- `run_full_analysis` as it acts on the heap: each pipeline stage
mutates only the analyzer's own cell `s`. -/
def runFullAnalysisRef (pol : String → ℚ) (geo : String → Option (ℚ × ℚ)) (now : ℤ)
    (h : Heap) (s : ℕ) : Heap :=
  let h1 := setSelfDf h s fun d => { d with rows := applyEngagement d.rows }
  let h2 := setSelfDf h1 s fun d => { d with rows := applySentiment pol d.rows }
  let h3 := setSelfDf h2 s fun d => { d with rows := applyEntities d.rows }
  let h4 := setSelfDf h3 s fun d => { d with rows := calculateAuthorMetrics d.rows }
  let h5 := setSelfDf h4 s fun d =>
    if d.has_author_created_at && d.has_author_followers_count then
      { d with rows := applyBotScore now d.rows }
    else d
  let h6 := setSelfDf h5 s fun d =>
    { d with rows := geocodeStage geo d.has_author_location d.rows }
  setSelfDf h6 s fun d => { d with rows := sortValuesDesc d.rows }

/-- C5: for every post text, the sentiment classifier labels `Hostile`
iff the polarity is strictly below `-0.05`, `Positive` iff strictly above
`0.05`, and `Neutral` otherwise; in particular a polarity of exactly
`-0.05` or exactly `0.05` yields `Neutral`. -/
theorem claim_c5 (pol : String → ℚ) (text : String) :
    ((getSentiment pol text).2 = "Hostile" ↔ pol text < -0.05) ∧
    ((getSentiment pol text).2 = "Positive" ↔ 0.05 < pol text) ∧
    ((getSentiment pol text).2 = "Neutral" ↔ -0.05 ≤ pol text ∧ pol text ≤ 0.05) ∧
    (getSentiment (fun _ => -(0.05 : ℚ)) text).2 = "Neutral" ∧
    (getSentiment (fun _ => (0.05 : ℚ)) text).2 = "Neutral" := by
  have hb1 : (getSentiment (fun _ => -(0.05 : ℚ)) text).2 = "Neutral" := by
    unfold getSentiment; norm_num
  have hb2 : (getSentiment (fun _ => (0.05 : ℚ)) text).2 = "Neutral" := by
    unfold getSentiment; norm_num
  unfold getSentiment
  by_cases h1 : pol text < -(0.05 : ℚ)
  · have h2 : ¬ ((0.05 : ℚ) < pol text) := by linarith
    refine ⟨?_, ?_, ?_, hb1, hb2⟩
    · simp [h1]
    · simp only [if_pos h1, Prod.snd]
      constructor
      · intro hc; exact absurd hc (by decide)
      · intro hp; exact absurd hp h2
    · simp only [if_pos h1, Prod.snd]
      constructor
      · intro hc; exact absurd hc (by decide)
      · rintro ⟨hle, _⟩; linarith
  · by_cases h2 : (0.05 : ℚ) < pol text
    · refine ⟨?_, ?_, ?_, hb1, hb2⟩
      · simp only [if_neg h1, if_pos h2, Prod.snd]
        constructor
        · intro hc; exact absurd hc (by decide)
        · intro hp; exact absurd hp h1
      · simp [h1, h2]
      · simp only [if_neg h1, if_pos h2, Prod.snd]
        constructor
        · intro hc; exact absurd hc (by decide)
        · rintro ⟨_, hle⟩; linarith
    · refine ⟨?_, ?_, ?_, hb1, hb2⟩
      · simp only [if_neg h1, if_neg h2, Prod.snd]
        constructor
        · intro hc; exact absurd hc (by decide)
        · intro hp; exact absurd hp h1
      · simp only [if_neg h1, if_neg h2, Prod.snd]
        constructor
        · intro hc; exact absurd hc (by decide)
        · intro hp; exact absurd hp h2
      · simp only [if_neg h1, if_neg h2, Prod.snd]
        constructor
        · intro _; exact ⟨by linarith, by linarith⟩
        · intro _; trivial

/-- C6: for every post whose four interaction counts are present as
non-negative numbers, the engagement score is the fixed-weight linear
combination `likes*1 + reposts*2 + replies*1.5 + quotes*3`; counts
`(10, 2, 1, 0)` give exactly `15.5`. -/
theorem claim_c6 (like retweet reply quote : ℚ) (h1 : 0 ≤ like) (h2 : 0 ≤ retweet)
    (h3 : 0 ≤ reply) (h4 : 0 ≤ quote) :
    engagementScore like retweet reply quote =
      like * 1 + retweet * 2 + reply * 1.5 + quote * 3 ∧
    engagementScore 10 2 1 0 = 15.5 := by
  constructor
  · have hw1 : weights "like_count" = 1 := by decide
    have hw2 : weights "retweet_count" = 2 := by decide
    have hw3 : weights "reply_count" = 1.5 := by decide
    have hw4 : weights "quote_count" = 3 := by decide
    unfold engagementScore
    rw [hw1, hw2, hw3, hw4]
  · decide

/-- Witness for C6 at the spec's own scenario `(10, 2, 1, 0)`. -/
theorem claim_c6_witness :
    engagementScore 10 2 1 0 = 10 * 1 + 2 * 2 + 1 * 1.5 + 0 * 3 ∧
    engagementScore 10 2 1 0 = 15.5 :=
  claim_c6 10 2 1 0 (by norm_num) (by norm_num) (by norm_num) (by norm_num)

/-- C8: constructing the engine on an empty input record set raises
`ValueError` immediately, before any stage runs (no `self.df` cell is
allocated, so no enrichment can be performed). -/
theorem claim_c8 (h : Heap) (caller : ℕ)
    (he : (h.getD caller emptyDf).rows = []) :
    analyzerInit h caller = Except.error "Input DataFrame cannot be empty." := by
  unfold analyzerInit
  rw [he]
  simp

/-- Witness for C8: a heap holding one empty DataFrame. -/
theorem claim_c8_witness :
    analyzerInit [emptyDf] 0 = Except.error "Input DataFrame cannot be empty." :=
  claim_c8 [emptyDf] 0 rfl

/-- C3 as stated is false: with both inputs present, a creation
timestamp one day in the future (`now = 0`, `created = 86400` epoch
seconds, 0 followers) makes `(now - created).days = -1`, so
`age_score = 1 + 1/365 > 1` and the computed score is
`7310/73 ≈ 100.14 > 100`. -/
theorem claim_c3_counterexample :
    botScore 0 (some (TsVal.valid 86400)) (some 0) = some (7310 / 73) ∧
    ¬ ((7310 / 73 : ℚ) ≤ 100) := by decide

/-- C3 amended: when either input is missing the result is exactly
`None`; every computed score is non-negative; and a computed score is at
most 100 provided the follower count is non-negative and the (parsed)
creation timestamp does not lie in the future. -/
theorem claim_c3_amended (now : ℤ) (c : TsVal) (f : ℚ) :
    botScore now none (some f) = none ∧
    botScore now (some c) none = none ∧
    (∀ s, botScore now (some c) (some f) = some s → 0 ≤ s) ∧
    (0 ≤ f → (∀ t, c = TsVal.valid t → t ≤ now) →
      ∀ s, botScore now (some c) (some f) = some s → s ≤ 100) := by
  have hfs0 : (0 : ℚ) ≤ max 0 (1 - f / 100) := le_max_left 0 _
  refine ⟨rfl, rfl, ?_, ?_⟩
  · intro s hs
    unfold botScore at hs
    cases c with
    | malformed =>
      simp only [Option.some.injEq] at hs
      have h05 : (0.5 : ℚ) = 1 / 2 := by norm_num
      rw [← hs]
      linarith
    | valid t =>
      simp only [Option.some.injEq] at hs
      have hage : (0 : ℚ) ≤ max 0 (1 - ((Int.fdiv (now - t) 86400 : ℤ) : ℚ) / 365) :=
        le_max_left 0 _
      rw [← hs]
      linarith
  · intro hf hfut s hs
    have hfs1 : max 0 (1 - f / 100) ≤ 1 := by
      apply max_le
      · norm_num
      · have : (0 : ℚ) ≤ f / 100 := by positivity
        linarith
    unfold botScore at hs
    cases c with
    | malformed =>
      simp only [Option.some.injEq] at hs
      have h05 : (0.5 : ℚ) = 1 / 2 := by norm_num
      rw [← hs, h05]
      linarith
    | valid t =>
      have ht : t ≤ now := hfut t rfl
      have hd : (0 : ℤ) ≤ Int.fdiv (now - t) 86400 :=
        Int.fdiv_nonneg (by omega) (by norm_num)
      have hdq : (0 : ℚ) ≤ ((Int.fdiv (now - t) 86400 : ℤ) : ℚ) := by
        exact_mod_cast hd
      have hage : max 0 (1 - ((Int.fdiv (now - t) 86400 : ℤ) : ℚ) / 365) ≤ 1 := by
        apply max_le
        · norm_num
        · have : (0 : ℚ) ≤ ((Int.fdiv (now - t) 86400 : ℤ) : ℚ) / 365 := by positivity
          linarith
      simp only [Option.some.injEq] at hs
      rw [← hs]
      linarith

/-- Witness for C3 (amended) at a one-year-old account with 50
followers: the score is computed, equal to 25, and inside `[0, 100]`. -/
theorem claim_c3_witness :
    botScore 0 (some (TsVal.valid (-31536000))) (some 50) = some 25 ∧
    (0 : ℚ) ≤ 25 ∧ (25 : ℚ) ≤ 100 := by
  have h := claim_c3_amended 0 (TsVal.valid (-31536000)) 50
  have hv : botScore 0 (some (TsVal.valid (-31536000))) (some 50) = some 25 := by decide
  refine ⟨hv, h.2.2.1 25 hv, h.2.2.2 (by norm_num) ?_ 25 hv⟩
  intro t ht
  injection ht with hh
  subst hh
  decide

theorem graphEdges_eq_foldl (rows : List Row) :
    graphEdges rows = (mentionOccurrences rows).foldl dedupAppend [] := by
  unfold graphEdges mentionOccurrences
  rw [List.foldl_flatten, List.foldl_map]
  congr 1
  funext es r
  rw [List.foldl_map]

def c4row : Row :=
  { tweet_id := "t1", author_id := some "a", text := "", like_count := 0,
    retweet_count := 0, reply_count := 0, quote_count := 0,
    mentions := some ["b", "b"] }

/-- C4 as stated is false: `networkx.DiGraph.add_edge` on an existing
edge is a no-op, so a post whose author mentions the same user twice
produces two mention occurrences but a single graph edge. -/
theorem claim_c4_counterexample :
    (mentionOccurrences [c4row]).length = 2 ∧ (graphEdges [c4row]).length = 1 ∧
    (graphEdges [c4row]).length ≠ (mentionOccurrences [c4row]).length := by decide

/-- C4 amended: duplicate `(author, mentioned)` pairs are coalesced —
the edge list is duplicate-free and contains a pair iff it occurs in
the input, so the edge count is the number of DISTINCT
`(author, mention)` pairs, not the total number of occurrences. -/
theorem claim_c4_amended (rows : List Row) :
    (graphEdges rows).Nodup ∧
    ∀ e : String × String, e ∈ graphEdges rows ↔ e ∈ mentionOccurrences rows := by
  constructor
  · rw [graphEdges_eq_foldl]
    exact nodup_foldl_dedupAppend _ [] List.nodup_nil
  · intro e
    rw [graphEdges_eq_foldl, mem_foldl_dedupAppend]
    simp

theorem find?_map_mkAggRow (df : List Row) (a : String) :
    ∀ ids : List String, a ∈ ids →
      ((ids.map (mkAggRow df)).find? fun g => g.author_id == a) = some (mkAggRow df a) := by
  intro ids
  induction ids with
  | nil => intro h; cases h
  | cons b l ih =>
    intro h
    rw [List.map_cons]
    by_cases hb : b = a
    · subst hb
      rw [List.find?_cons_of_pos]
      simp [mkAggRow]
    · rw [List.find?_cons_of_neg]
      · apply ih
        rcases List.mem_cons.mp h with h | h
        · exact absurd h.symm hb
        · exact h
      · simp [mkAggRow, hb]

theorem mergeRow_author_id (agg : List AggRow) (p : Row) :
    (mergeRow agg p).author_id = p.author_id := by
  unfold mergeRow
  cases h : p.author_id.bind fun a => agg.find? fun g => g.author_id == a <;> rfl

theorem mergeRow_fields (agg : List AggRow) (p1 p2 : Row)
    (h : p1.author_id = p2.author_id) :
    (mergeRow agg p1).tweet_count = (mergeRow agg p2).tweet_count ∧
    (mergeRow agg p1).total_engagement = (mergeRow agg p2).total_engagement ∧
    (mergeRow agg p1).hostile_tweet_count = (mergeRow agg p2).hostile_tweet_count ∧
    (mergeRow agg p1).author_hostility_score = (mergeRow agg p2).author_hostility_score := by
  unfold mergeRow
  rw [h]
  cases hx : p2.author_id.bind fun a => agg.find? fun g => g.author_id == a <;>
    exact ⟨rfl, rfl, rfl, rfl⟩

theorem mergeRow_score (df : List Row) (p : Row) (a : String) (hp : p ∈ df)
    (ha : p.author_id = some a) :
    (mergeRow (authorAgg df) p).author_hostility_score =
      some (((groupHostileCount df a : ℚ) / (groupCount df a : ℚ)) * 100) := by
  have hmem : a ∈ df.filterMap fun q => q.author_id :=
    List.mem_filterMap.mpr ⟨p, hp, ha⟩
  have hfind := find?_map_mkAggRow df a (uniqueFirst (df.filterMap fun q => q.author_id))
    ((mem_uniqueFirst _ _).mpr hmem)
  unfold mergeRow authorAgg
  rw [ha, Option.some_bind, hfind]
  rfl

/-- C1: on every record set, author aggregation preserves the row count
(the merge key set is duplicate-free, so the left merge neither fans out
nor drops rows), assigns every row with a non-null author the hostility
score `100 * hostile_count(author) / tweet_count(author)`, and gives any
two rows sharing an author identifier identical values in all four
author-aggregate columns. -/
theorem claim_c1 (df : List Row) (hne : df ≠ []) :
    (calculateAuthorMetrics df).length = df.length ∧
    (∀ q, q ∈ calculateAuthorMetrics df → ∀ a, q.author_id = some a →
      q.author_hostility_score =
        some (100 * (groupHostileCount df a : ℚ) / (groupCount df a : ℚ))) ∧
    (∀ q1 q2, q1 ∈ calculateAuthorMetrics df → q2 ∈ calculateAuthorMetrics df →
      q1.author_id = q2.author_id →
      q1.tweet_count = q2.tweet_count ∧ q1.total_engagement = q2.total_engagement ∧
      q1.hostile_tweet_count = q2.hostile_tweet_count ∧
      q1.author_hostility_score = q2.author_hostility_score) := by
  refine ⟨by unfold calculateAuthorMetrics; rw [List.length_map], ?_, ?_⟩
  · intro q hq a ha
    rcases List.mem_map.mp hq with ⟨p, hp, hpq⟩
    subst hpq
    have hpa : p.author_id = some a := by
      rw [← mergeRow_author_id (authorAgg df) p]; exact ha
    rw [mergeRow_score df p a hp hpa]
    congr 1
    ring
  · intro q1 q2 hq1 hq2 h12
    rcases List.mem_map.mp hq1 with ⟨p1, hp1, e1⟩
    rcases List.mem_map.mp hq2 with ⟨p2, hp2, e2⟩
    subst e1
    subst e2
    rw [mergeRow_author_id, mergeRow_author_id] at h12
    exact mergeRow_fields _ p1 p2 h12

def c1rowH : Row :=
  { tweet_id := "t1", author_id := some "a", text := "", like_count := 0,
    retweet_count := 0, reply_count := 0, quote_count := 0,
    engagement_score := some 1, sentiment_label := some "Hostile" }

def c1rowN : Row :=
  { tweet_id := "t2", author_id := some "a", text := "", like_count := 0,
    retweet_count := 0, reply_count := 0, quote_count := 0,
    engagement_score := some 2, sentiment_label := some "Neutral" }

def c1df : List Row := [c1rowH, c1rowN]

def c1q : Row :=
  { c1rowH with tweet_count := some 2, total_engagement := some 3,
                hostile_tweet_count := some 1, author_hostility_score := some 50 }

/-- Witness for C1 at the spec's own scenario: two posts by one author,
one `Hostile` and one `Neutral`, give hostility score 50 on the output
row. -/
theorem claim_c1_witness :
    (calculateAuthorMetrics c1df).length = c1df.length ∧
    c1q.author_hostility_score = some (100 * (1 : ℚ) / 2) := by
  have h := claim_c1 c1df (by decide)
  refine ⟨h.1, ?_⟩
  have hm : c1q ∈ calculateAuthorMetrics c1df := by decide
  have hsc := h.2.1 c1q hm "a" rfl
  have h1 : groupHostileCount c1df "a" = 1 := by decide
  have h2 : groupCount c1df "a" = 2 := by decide
  rw [hsc, h1, h2]
  norm_num

def c9row : Row :=
  { tweet_id := "t1", author_id := none, text := "", like_count := 0,
    retweet_count := 0, reply_count := 0, quote_count := 0 }

/-- C9 as stated is false: a post with a null `author_id` does not make
`_calculate_author_metrics` fail — pandas `groupby` drops the null key
and the left merge leaves the row unmatched, so the output still
contains a row for the post, with null aggregates. -/
theorem claim_c9_counterexample :
    (calculateAuthorMetrics [c9row]).length = 1 ∧
    (calculateAuthorMetrics [c9row]).map (fun r => r.tweet_id) = ["t1"] ∧
    (calculateAuthorMetrics [c9row]).map (fun r => r.author_hostility_score) = [none] := by
  decide

/-- C9 amended: a post with an absent (null) `author_id` does not cause
a failure; the aggregator still returns one output row per input row,
and such a post's four author-aggregate columns are all null. -/
theorem claim_c9_amended (df : List Row) :
    (calculateAuthorMetrics df).length = df.length ∧
    ∀ q, q ∈ calculateAuthorMetrics df → q.author_id = none →
      q.tweet_count = none ∧ q.total_engagement = none ∧
      q.hostile_tweet_count = none ∧ q.author_hostility_score = none := by
  refine ⟨by unfold calculateAuthorMetrics; rw [List.length_map], ?_⟩
  intro q hq hqa
  rcases List.mem_map.mp hq with ⟨p, hp, e⟩
  subst e
  have hpa : p.author_id = none := by
    rw [← mergeRow_author_id (authorAgg df) p]; exact hqa
  unfold mergeRow
  rw [hpa, Option.none_bind]
  exact ⟨rfl, rfl, rfl, rfl⟩

/-- Witness for C9 (amended) at a one-post dataset with a null author. -/
theorem claim_c9_witness :
    (calculateAuthorMetrics [c9row]).length = 1 ∧
    c9row.tweet_count = none ∧ c9row.total_engagement = none ∧
    c9row.hostile_tweet_count = none ∧ c9row.author_hostility_score = none := by
  have h := claim_c9_amended [c9row]
  exact ⟨h.1, h.2 c9row (by decide) rfl⟩

theorem applyCache_author_location (cache : List (String × (Option ℚ × Option ℚ)))
    (r : Row) : (applyCache cache r).author_location = r.author_location := by
  cases h : r.author_location with
  | none => simp [applyCache, h]
  | some s =>
    simp only [applyCache, h]
    cases h2 : cache.find? fun e => e.1 == s <;> simp [h2]

theorem applyCache_coords (cache : List (String × (Option ℚ × Option ℚ))) (r : Row)
    (s : String) (h : r.author_location = some s) :
    (applyCache cache r).latitude =
      (match cache.find? fun e => e.1 == s with
       | some e => e.2.1
       | none => none) ∧
    (applyCache cache r).longitude =
      (match cache.find? fun e => e.1 == s with
       | some e => e.2.2
       | none => none) := by
  simp only [applyCache, h]
  cases h2 : cache.find? fun e => e.1 == s <;> simp [h2]

theorem geocodeStage_coords (geo : String → Option (ℚ × ℚ)) (hasCol : Bool)
    (rows : List Row) :
    ∀ q1 q2 s, q1 ∈ geocodeStage geo hasCol rows → q2 ∈ geocodeStage geo hasCol rows →
      q1.author_location = some s → q2.author_location = some s →
      q1.latitude = q2.latitude ∧ q1.longitude = q2.longitude := by
  intro q1 q2 s h1 h2 ha1 ha2
  unfold geocodeStage at h1 h2
  by_cases hc : hasCol = true
  · rw [if_pos hc] at h1 h2
    by_cases hu : (uniqueLocations rows).isEmpty
    · rw [if_pos hu] at h1 h2
      rcases List.mem_map.mp h1 with ⟨r1, _, e1⟩
      rcases List.mem_map.mp h2 with ⟨r2, _, e2⟩
      subst e1
      subst e2
      exact ⟨rfl, rfl⟩
    · rw [if_neg hu] at h1 h2
      rcases List.mem_map.mp h1 with ⟨r1, _, e1⟩
      rcases List.mem_map.mp h2 with ⟨r2, _, e2⟩
      subst e1
      subst e2
      rw [applyCache_author_location] at ha1 ha2
      have c1 := applyCache_coords
        ((uniqueLocations rows).map fun t => (t, geoPair (geo t))) r1 s ha1
      have c2 := applyCache_coords
        ((uniqueLocations rows).map fun t => (t, geoPair (geo t))) r2 s ha2
      exact ⟨c1.1.trans c2.1.symm, c1.2.trans c2.2.symm⟩
  · rw [if_neg hc] at h1 h2
    rcases List.mem_map.mp h1 with ⟨r1, _, e1⟩
    rcases List.mem_map.mp h2 with ⟨r2, _, e2⟩
    subst e1
    subst e2
    exact ⟨rfl, rfl⟩

theorem geocodeLocations_ok (geo : String → Option (ℚ × ℚ)) (hasCol : Bool)
    (rows : List Row) (out : List Row)
    (h : geocodeLocations geo hasCol rows = Except.ok out) :
    out = geocodeStage geo hasCol rows := by
  unfold geocodeLocations at h
  unfold geocodeStage
  by_cases hc : hasCol = true
  · rw [if_pos hc] at h ⊢
    by_cases hu : (uniqueLocations rows).isEmpty
    · rw [if_pos hu] at h ⊢
      injection h with hout
      exact hout.symm
    · rw [if_neg hu] at h ⊢
      cases hh : rows.head? with
      | none => rw [hh] at h; exact Except.noConfusion h
      | some r0 =>
        simp only [hh] at h
        cases hl : r0.author_location with
        | none => simp only [hl] at h; exact Except.noConfusion h
        | some s0 =>
          simp only [hl] at h
          injection h with hout
          exact hout.symm
  · rw [if_neg hc] at h ⊢
    injection h with hout
    exact hout.symm

def c7row1 : Row :=
  { tweet_id := "t1", author_id := some "a", text := "", like_count := 0,
    retweet_count := 0, reply_count := 0, quote_count := 0,
    author_location := some "Berlin" }

def c7row2 : Row :=
  { tweet_id := "t2", author_id := some "b", text := "", like_count := 0,
    retweet_count := 0, reply_count := 0, quote_count := 0,
    author_location := some "Berlin" }

def c7rowNull : Row :=
  { tweet_id := "t0", author_id := some "c", text := "", like_count := 0,
    retweet_count := 0, reply_count := 0, quote_count := 0 }

def c7geo : String → Option (ℚ × ℚ) := fun _ => some (52.52, 13.405)

def c7q1 : Row := { c7row1 with latitude := some 52.52, longitude := some 13.405 }

def c7q2 : Row := { c7row2 with latitude := some 52.52, longitude := some 13.405 }

/-- C7 as stated is false: on a run whose first record has a null
location while two later posts share the non-null location `"Berlin"`,
`_geocode_locations` raises `ValueError('Columns must be same length as
key')` (the nan-first coords list builds a one-column frame), so the
resolver assigns the two posts no coordinates at all instead of
identical ones. -/
theorem claim_c7_counterexample :
    c7row1.author_location = some "Berlin" ∧ c7row2.author_location = some "Berlin" ∧
    geocodeLocations c7geo true [c7rowNull, c7row1, c7row2] =
      Except.error "Columns must be same length as key" :=
  ⟨rfl, rfl, rfl⟩

/-- C7 amended: the external geocoder is invoked at most once per
distinct location string on every run (the call loop precedes the
failing assignment), and on every run on which the resolver completes —
it raises when the first record's location is null while location data
exists — any two rows carrying the same non-null location string receive
identical latitude and longitude values (both drawn from the same cache
entry, or both null). -/
theorem claim_c7_amended (geo : String → Option (ℚ × ℚ)) (hasCol : Bool)
    (rows : List Row) :
    (∀ s, (geocodeCallLog hasCol rows).count s ≤ 1) ∧
    (∀ out, geocodeLocations geo hasCol rows = Except.ok out →
      ∀ q1 q2 s, q1 ∈ out → q2 ∈ out →
        q1.author_location = some s → q2.author_location = some s →
        q1.latitude = q2.latitude ∧ q1.longitude = q2.longitude) := by
  constructor
  · intro s
    unfold geocodeCallLog
    cases hasCol with
    | false => simp
    | true =>
      simp only [if_pos]
      exact List.nodup_iff_count_le_one.mp (nodup_uniqueFirst _) s
  · intro out hok q1 q2 s h1 h2 ha1 ha2
    rw [geocodeLocations_ok geo hasCol rows out hok] at h1 h2
    exact geocodeStage_coords geo hasCol rows q1 q2 s h1 h2 ha1 ha2

/-- Witness for C7 (amended): two rows sharing the location string
`"Berlin"` on a completing run — one geocoder call, identical
coordinates on both output rows. -/
theorem claim_c7_witness :
    (geocodeCallLog true [c7row1, c7row2]).count "Berlin" ≤ 1 ∧
    c7q1.latitude = c7q2.latitude ∧ c7q1.longitude = c7q2.longitude := by
  have h := claim_c7_amended c7geo true [c7row1, c7row2]
  have hok : geocodeLocations c7geo true [c7row1, c7row2] = Except.ok [c7q1, c7q2] :=
    rfl
  exact ⟨h.1 "Berlin",
    h.2 [c7q1, c7q2] hok c7q1 c7q2 "Berlin" (List.mem_cons_self _ _)
      (List.mem_cons_of_mem _ (List.mem_cons_self _ _)) rfl rfl⟩

theorem getD_setSelfDf_ne (hh : Heap) (s c : ℕ) (f : Df → Df) (hne : c ≠ s) :
    (setSelfDf hh s f).getD c emptyDf = hh.getD c emptyDf := by
  unfold setSelfDf
  rw [List.getD_eq_getElem?_getD, List.getElem?_set_ne (fun hx => hne hx.symm),
    List.getD_eq_getElem?_getD]

/-- C10: the engine never mutates the caller's DataFrame: the
constructor copies it into a fresh heap cell and every pipeline stage
updates only the analyzer's own cell, so after `run_full_analysis` the
caller's cell still holds the original records. -/
theorem claim_c10 (pol : String → ℚ) (geo : String → Option (ℚ × ℚ)) (now : ℤ)
    (h : Heap) (caller : ℕ) (h1 : Heap) (s : ℕ)
    (hinit : analyzerInit h caller = Except.ok (h1, s)) :
    (runFullAnalysisRef pol geo now h1 s).getD caller emptyDf =
      h.getD caller emptyDf := by
  unfold analyzerInit at hinit
  by_cases he : (h.getD caller emptyDf).rows.isEmpty
  · rw [if_pos he] at hinit
    cases hinit
  · rw [if_neg he] at hinit
    injection hinit with hpair
    have hh1 : h1 = h ++ [h.getD caller emptyDf] := (Prod.mk.injEq _ _ _ _).mp hpair.symm |>.1
    have hs : s = h.length := (Prod.mk.injEq _ _ _ _).mp hpair.symm |>.2
    have hcl : caller < h.length := by
      by_contra hge
      push_neg at hge
      rw [List.getD_eq_default _ _ hge] at he
      exact he rfl
    have hne : caller ≠ s := by rw [hs]; exact Nat.ne_of_lt hcl
    subst hh1
    unfold runFullAnalysisRef
    rw [getD_setSelfDf_ne _ _ _ _ hne, getD_setSelfDf_ne _ _ _ _ hne,
      getD_setSelfDf_ne _ _ _ _ hne, getD_setSelfDf_ne _ _ _ _ hne,
      getD_setSelfDf_ne _ _ _ _ hne, getD_setSelfDf_ne _ _ _ _ hne,
      getD_setSelfDf_ne _ _ _ _ hne]
    exact List.getD_append _ _ _ _ hcl

def c10row : Row :=
  { tweet_id := "t", author_id := some "a", text := "", like_count := 0,
    retweet_count := 0, reply_count := 0, quote_count := 0 }

def c10df : Df :=
  { rows := [c10row], has_author_created_at := false,
    has_author_followers_count := false, has_author_location := false }

def pol0 : String → ℚ := fun _ => 0

def geo0 : String → Option (ℚ × ℚ) := fun _ => none

/-- Witness for C10: a one-cell heap; after construction (which
allocates cell 1) and a full pipeline run on cell 1, cell 0 still holds
the caller's DataFrame. -/
theorem claim_c10_witness :
    (runFullAnalysisRef pol0 geo0 0 [c10df, c10df] 1).getD 0 emptyDf =
      [c10df].getD 0 emptyDf :=
  claim_c10 pol0 geo0 0 [c10df] 0 [c10df, c10df] 1 rfl

def pipeRowA : Row :=
  { tweet_id := "a", author_id := some "u", text := "", like_count := 0,
    retweet_count := 0, reply_count := 0, quote_count := 0 }

def pipeRowB : Row := { pipeRowA with tweet_id := "b", like_count := 1 }

def pipeDf : Df :=
  { rows := [pipeRowA, pipeRowB], has_author_created_at := false,
    has_author_followers_count := false, has_author_location := false }

example : ((runFullAnalysis pol0 geo0 0 pipeDf).rows).map (fun r => r.tweet_id) =
    ["b", "a"] := by decide

end Argus
